import Mathlib

/-
Verification of the ph_gh_component_io input-cleaning helpers and
validator descriptors (src/ph_gh_component_io/input_tools.py and
src/ph_gh_component_io/validators.py), as a shallow embedding.

Python runtime values relevant to this code base are modelled by the
inductive type PyVal (None, int, float, str); Python floats are modelled
as exact rationals, since every numeric operation the code performs
(comparison, subtraction, division by 100) is exact on the inputs the
claims mention.  Raising an exception is modelled by Except.error, and
each validator method validate(self, name, new_value, old_value) becomes
a Lean function taking the configured default of the descriptor (the
only attribute of self these methods use) followed by name, new_value
and old_value.
-/

set_option maxHeartbeats 1000000
set_option linter.unusedVariables false

deriving instance DecidableEq for Except

attribute [local semireducible] Rat.mul Rat.inv Rat.add Rat.sub

namespace PhGH

/-- A Python runtime value: None, an int, a float (modelled as an exact
rational), or a str. -/
inductive PyVal where
  | none : PyVal
  | int (n : Int) : PyVal
  | float (q : Rat) : PyVal
  | str (s : String) : PyVal
deriving DecidableEq, Repr

/-- Digit characters to the natural number they denote, most significant
first (models what Python int() does to a run of decimal digits). -/
def digitsToNat (cs : List Char) : Nat :=
  cs.foldl (fun acc c => acc * 10 + (c.toNat - 48)) 0

/-- Leading maximal run of digit characters of a character list. -/
def leadingDigits : List Char → List Char
  | [] => []
  | c :: cs => if c.isDigit then c :: leadingDigits cs else []

/-- First maximal run of digit characters in a character list, if any. -/
def firstDigitRunAux : List Char → Option (List Char)
  | [] => Option.none
  | c :: cs => if c.isDigit then some (c :: leadingDigits cs) else firstDigitRunAux cs

/-- Models re.search of one-or-more digits on a string: the first maximal
run of decimal digits, if any. -/
def firstDigitRun (s : String) : Option String :=
  (firstDigitRunAux s.toList).map List.asString

/-- Unsigned decimal literal (digits, optionally with one dot) to an
exact rational; Option.none when the characters are not such a literal. -/
def parseUnsignedDecimal : List Char → Option Rat :=
  fun cs =>
    let ip := cs.takeWhile (fun c => c ≠ '.')
    let rest := cs.dropWhile (fun c => c ≠ '.')
    match rest with
    | [] =>
      if !ip.isEmpty && ip.all Char.isDigit then some ((digitsToNat ip : Int) : Rat)
      else Option.none
    | _ :: fp =>
      if (ip.all Char.isDigit) && (fp.all Char.isDigit) && (!ip.isEmpty || !fp.isEmpty) then
        some (((digitsToNat ip : Int) : Rat) + ((digitsToNat fp : Int) : Rat) / ((10 : Rat) ^ fp.length))
      else Option.none

/-- Strips leading and trailing whitespace from a character list (the
whitespace stripping Python float() and int() perform on strings). -/
def trimChars (cs : List Char) : List Char :=
  ((cs.dropWhile Char.isWhitespace).reverse.dropWhile Char.isWhitespace).reverse

/-- Models Python float() applied to a string, restricted to plain signed
decimal literals (no exponent, no inf or nan): surrounding whitespace is
stripped, then an optional leading sign and a decimal literal. -/
def parseDecimal (s : String) : Option Rat :=
  match trimChars s.toList with
  | '+' :: cs => parseUnsignedDecimal cs
  | '-' :: cs => (parseUnsignedDecimal cs).map Neg.neg
  | cs => parseUnsignedDecimal cs

/-- Models Python int() applied to a string: surrounding whitespace is
stripped, then an optional leading sign followed by digits only. -/
def parseIntStr (s : String) : Option Int :=
  match trimChars s.toList with
  | '+' :: cs => if !cs.isEmpty && cs.all Char.isDigit then some ((digitsToNat cs : Int)) else Option.none
  | '-' :: cs => if !cs.isEmpty && cs.all Char.isDigit then some (-(digitsToNat cs : Int)) else Option.none
  | cs => if !cs.isEmpty && cs.all Char.isDigit then some ((digitsToNat cs : Int)) else Option.none

/-- Models Python float(x): fails on None, converts ints, keeps floats,
parses decimal-literal strings. -/
def pyFloatCoerce : PyVal → Option Rat
  | PyVal.none => Option.none
  | PyVal.int n => some ((n : Rat))
  | PyVal.float q => some q
  | PyVal.str s => parseDecimal s

/-- Truncation of a rational toward zero, as Python int() on a float. -/
def ratTruncToInt (q : Rat) : Int := q.num / (q.den : Int)

/-- Models Python int(x): fails on None, keeps ints, truncates floats
toward zero, parses integer-literal strings. -/
def pyIntCoerce : PyVal → Option Int
  | PyVal.none => Option.none
  | PyVal.int n => some n
  | PyVal.float q => some (ratTruncToInt q)
  | PyVal.str s => parseIntStr s

/-- Python truthiness on the modelled values: None, 0, 0.0 and the empty
string are falsy, everything else truthy. -/
def pyTruthy : PyVal → Bool
  | PyVal.none => false
  | PyVal.int n => n != 0
  | PyVal.float q => q != 0
  | PyVal.str s => !s.isEmpty

/-- Models Python str(x) on the modelled values.  The rendering of a
float uses the Rat ToString instance rather than the repr a CPython
float would produce; no theorem below depends on the concrete string
form of a float, only on properties of the string form stated as
hypotheses. -/
def pyStr : PyVal → String
  | PyVal.none => "None"
  | PyVal.int n => toString n
  | PyVal.float q => toString q
  | PyVal.str s => s

/-- Embeds input_to_int from input_tools.py: a falsy input returns the
caller default unchanged; otherwise the first run of decimal digits in
the string form of the input is returned as an int, and if no such run
exists an input error is raised. -/
def input_to_int (input_value default : PyVal) : Except String PyVal :=
  if !pyTruthy input_value then Except.ok default
  else
    match firstDigitRun (pyStr input_value) with
    | some run => Except.ok (PyVal.int ((digitsToNat run.toList : Int)))
    | Option.none =>
      Except.error ("Input Error: Cannot use input " ++ pyStr input_value ++ ". Please check the allowable input options.")

/-- Python list indexing: a negative index counts from the end; an index
out of the range -len..len-1 raises IndexError, modelled as Option.none. -/
def pyIndex (n : Nat) (i : Int) : Option Nat :=
  let j : Int := if i < 0 then i + n else i
  if 0 ≤ j ∧ j < n then some j.toNat else Option.none

/-- Element access on a Lean list with Python index semantics. -/
def pyListGet {α : Type u} (l : List α) (i : Int) : Option α :=
  match pyIndex l.length i with
  | some j => l.get? j
  | Option.none => Option.none

/-- Embeds clean_get from input_tools.py: try the requested index,
on IndexError try index 0, on IndexError again return the (optional)
default. -/
def clean_get {α : Type u} (l : List α) (i : Int) (default : Option α) : Option α :=
  match pyListGet l i with
  | some x => some x
  | Option.none =>
    match pyListGet l 0 with
    | some x => some x
    | Option.none => default

/-- Embeds cleaner_get from input_tools.py: same fallback chain as
clean_get but with a required default. -/
def cleaner_get {α : Type u} (l : List α) (i : Int) (default : α) : α :=
  match pyListGet l i with
  | some x => x
  | Option.none =>
    match pyListGet l 0 with
    | some x => x
    | Option.none => default

/-- State of the memoize wrapper from input_tools.py: the host-provided
sticky dict (an association list from the positional-argument tuple to
the cached value) together with a count of how many times the wrapped
function has actually been invoked. -/
structure MemoState (α β : Type u) where
  sticky : List (α × β)
  calls : Nat
deriving DecidableEq, Repr

/-- Lookup in the sticky dict (first binding wins, as a Python dict in
which assignment is modelled by consing the new binding in front). -/
def stickyLookup {α β : Type u} [DecidableEq α] : List (α × β) → α → Option β
  | [], _ => Option.none
  | kv :: rest, a => if kv.1 = a then some kv.2 else stickyLookup rest a

/-- Embeds the wrapper produced by memoize in input_tools.py.  The
underlying function takes the invocation index first (modelling a
function whose behaviour may differ between invocations), then the
positional arguments (the cache key) and the keyword arguments (which
take no part in the key).  On a cache hit the stored value is returned
and the function is not invoked; on a miss the function is invoked once,
its value stored under the positional arguments, and returned. -/
def memoize_wrapper {α β κ : Type} [DecidableEq α] (func : Nat → α → κ → β)
    (s : MemoState α β) (args : α) (kwargs : κ) : β × MemoState α β :=
  match stickyLookup s.sticky args with
  | some v => (v, s)
  | Option.none =>
    let rv := func s.calls args kwargs
    (rv, ⟨(args, rv) :: s.sticky, s.calls + 1⟩)

/-- Python `x or y` specialised to an optional unit-token string: None
and the empty string are falsy and give the fallback. -/
def strOr (u : Option String) (d : String) : String :=
  match u with
  | Option.none => d
  | some s => if s = "" then d else s

/-- Embeds Validated.validate of class NotNone in validators.py. -/
def NotNone.validate (_default : PyVal) (name : String) (new_value old_value : PyVal) :
    Except String PyVal :=
  if new_value ≠ PyVal.none then Except.ok new_value
  else if old_value ≠ PyVal.none then Except.ok old_value
  else Except.error ("Error: value for " ++ name ++ " may not be None.")

/-- Embeds IntegerNonZero.validate from validators.py. -/
def IntegerNonZero.validate (default : PyVal) (name : String) (new_value old_value : PyVal) :
    Except String PyVal :=
  if new_value = PyVal.none then
    match pyIntCoerce default with
    | some n => Except.ok (PyVal.int n)
    | Option.none => Except.ok old_value
  else
    match pyIntCoerce new_value with
    | Option.none =>
      Except.error ("Error: input " ++ pyStr new_value ++ " is not allowed. Supply positive integer only.")
    | some n =>
      if n < 1 then Except.error ("Error: input for " ++ name ++ " cannot be zero or negative.")
      else Except.ok (PyVal.int n)

/-- Embeds IntegerPositiveValueOrZero.validate from validators.py. -/
def IntegerPositiveValueOrZero.validate (default : PyVal) (name : String) (new_value old_value : PyVal) :
    Except String PyVal :=
  if new_value = PyVal.none then
    match pyIntCoerce default with
    | some n => Except.ok (PyVal.int n)
    | Option.none => Except.ok old_value
  else
    match pyIntCoerce new_value with
    | Option.none =>
      Except.error ("Error: input " ++ pyStr new_value ++ " is not allowed. Supply positive integer values only.")
    | some n =>
      if n < 0 then Except.error ("Error: input for " ++ name ++ " cannot be negative.")
      else Except.ok (PyVal.int n)

/-- Embeds Float.validate from validators.py (any float accepted). -/
def Float.validate (default : PyVal) (name : String) (new_value old_value : PyVal) :
    Except String PyVal :=
  if new_value = PyVal.none then
    match pyFloatCoerce default with
    | some q => Except.ok (PyVal.float q)
    | Option.none => Except.ok old_value
  else
    match pyFloatCoerce new_value with
    | Option.none =>
      Except.error ("Error: input " ++ pyStr new_value ++ " is not allowed. Supply float only.")
    | some q => Except.ok (PyVal.float q)

/-- The class attribute tolerance of FloatNonZero in validators.py. -/
def FloatNonZero.tolerance : Rat := 1 / 10000

/-- Embeds FloatNonZero.validate from validators.py: rejects a coerced
value whenever value - 0.0 is below the tolerance. -/
def FloatNonZero.validate (default : PyVal) (name : String) (new_value old_value : PyVal) :
    Except String PyVal :=
  if new_value = PyVal.none then
    match pyFloatCoerce default with
    | some q => Except.ok (PyVal.float q)
    | Option.none => Except.ok old_value
  else
    match pyFloatCoerce new_value with
    | Option.none =>
      Except.error ("Error: input " ++ pyStr new_value ++ " is not allowed. Supply float values only.")
    | some q =>
      if q - 0 < FloatNonZero.tolerance then
        Except.error ("Error: input for " ++ name ++ " cannot be zero.")
      else Except.ok (PyVal.float q)

/-- Embeds FloatPositiveValue.validate from validators.py. -/
def FloatPositiveValue.validate (default : PyVal) (name : String) (new_value old_value : PyVal) :
    Except String PyVal :=
  if new_value = PyVal.none then
    match pyFloatCoerce default with
    | some q => Except.ok (PyVal.float q)
    | Option.none => Except.ok old_value
  else
    match pyFloatCoerce new_value with
    | Option.none =>
      Except.error ("Error: input " ++ pyStr new_value ++ " is not allowed. Supply float values only.")
    | some q =>
      if q < 0 then Except.error ("Error: input for " ++ name ++ " cannot be negative.")
      else Except.ok (PyVal.float q)

/-- Embeds FloatPercentage.validate from validators.py: a coerced value
strictly between 1.0 and 100.0 is divided by 100, then the (possibly
rescaled) value must lie in the closed interval 0.0 to 1.0. -/
def FloatPercentage.validate (default : PyVal) (name : String) (new_value old_value : PyVal) :
    Except String PyVal :=
  if new_value = PyVal.none then
    match pyFloatCoerce default with
    | some q => Except.ok (PyVal.float q)
    | Option.none => Except.ok old_value
  else
    match pyFloatCoerce new_value with
    | Option.none =>
      Except.error ("Error: input " ++ pyStr new_value ++ " is not allowed. Supply float values only.")
    | some q =>
      let q2 := if 1 < q ∧ q < 100 then q / 100 else q
      if 0 ≤ q2 ∧ q2 ≤ 1 then Except.ok (PyVal.float q2)
      else Except.error ("Error: input for " ++ name ++ " must be between 0.0 and 1.0")

/-- Embeds UnitM.validate from validators.py.  The external ph_units
library is not part of this repository, so its two entry points are
parameters: parse models parser.parse_input (string to value part and
optional unit token) and convert models converter.convert (value,
from-unit, to-unit).  A missing or empty unit token falls back to the
canonical unit M via Python `or`. -/
def UnitM.validate (parse : String → PyVal × Option String)
    (convert : Rat → String → String → Except String Rat)
    (default : PyVal) (name : String) (new_value old_value : PyVal) :
    Except String PyVal :=
  if new_value = PyVal.none then
    match pyFloatCoerce default with
    | some q => Except.ok (PyVal.float q)
    | Option.none => Except.ok old_value
  else
    let pr := parse (pyStr new_value)
    match pyFloatCoerce pr.1 with
    | Option.none =>
      Except.error ("Error: input " ++ pyStr new_value ++ " is not allowed. Supply float only.")
    | some v =>
      match convert v (strOr pr.2 "M") "M" with
      | Except.error e => Except.error e
      | Except.ok result => Except.ok (PyVal.float result)

/-- Embeds UnitM2.validate from validators.py, with canonical unit M2;
same shape as UnitM.validate. -/
def UnitM2.validate (parse : String → PyVal × Option String)
    (convert : Rat → String → String → Except String Rat)
    (default : PyVal) (name : String) (new_value old_value : PyVal) :
    Except String PyVal :=
  if new_value = PyVal.none then
    match pyFloatCoerce default with
    | some q => Except.ok (PyVal.float q)
    | Option.none => Except.ok old_value
  else
    let pr := parse (pyStr new_value)
    match pyFloatCoerce pr.1 with
    | Option.none =>
      Except.error ("Error: input " ++ pyStr new_value ++ " is not allowed. Supply float only.")
    | some v =>
      match convert v (strOr pr.2 "M2") "M2" with
      | Except.error e => Except.error e
      | Except.ok result => Except.ok (PyVal.float result)

/-- Embeds UnitCost_KWH.validate from validators.py.  Note: in the
source this method computes result = converter.convert(...), prints it,
and then falls off the end of the function body with no return
statement, so on the non-None path Python returns None, not the
converted value.  The embedding reproduces that: the converted result is
computed (and conversion errors still propagate) but the value returned
on success is None. -/
def UnitCost_KWH.validate (parse : String → PyVal × Option String)
    (convert : Rat → String → String → Except String Rat)
    (default : PyVal) (name : String) (new_value old_value : PyVal) :
    Except String PyVal :=
  if new_value = PyVal.none then
    match pyFloatCoerce default with
    | some q => Except.ok (PyVal.float q)
    | Option.none => Except.ok old_value
  else
    let pr := parse (pyStr new_value)
    match pyFloatCoerce pr.1 with
    | Option.none =>
      Except.error ("Error: input " ++ pyStr new_value ++ " is not allowed. Supply float only.")
    | some v =>
      match convert v (strOr pr.2 "COST/KWH") "COST/KWH" with
      | Except.error e => Except.error e
      | Except.ok _result => Except.ok PyVal.none

/-- Lookup in an instance __dict__ (modelled as an association list);
a missing key reads as None, exactly what instance.__dict__.get(name,
None) produces in Validated.__set__. -/
def dictGet (d : List (String × PyVal)) (k : String) : PyVal :=
  match d.find? (fun kv => kv.1 == k) with
  | some kv => kv.2
  | Option.none => PyVal.none

/-- Embeds Validated.__set__ from validators.py: run the concrete
validate with the storage name, the new value and the currently stored
value (None when absent), then store whatever validate returned under
the storage name.  An error from validate propagates and nothing is
stored. -/
def Validated.set (validate : String → PyVal → PyVal → Except String PyVal)
    (storage_name : String) (inst : List (String × PyVal)) (value : PyVal) :
    Except String (List (String × PyVal)) :=
  match validate storage_name value (dictGet inst storage_name) with
  | Except.ok v => Except.ok ((storage_name, v) :: inst)
  | Except.error e => Except.error e

/-- Sample external parser for concrete evaluations: the whole string is
the value part and there is no unit token. -/
def idParse (s : String) : PyVal × Option String := (PyVal.str s, Option.none)

/-- Sample external converter for concrete evaluations: identity on the
value regardless of units. -/
def idConvert (v : Rat) (u1 u2 : String) : Except String Rat := Except.ok v

/-- Sample external parser that tags every value with the unit token FT. -/
def ftParse (s : String) : PyVal × Option String := (PyVal.str s, some "FT")

/-- Sample external converter knowing only the identity conversions and
feet to meters at the factor 0.3048. -/
def ftConvert (v : Rat) (u1 u2 : String) : Except String Rat :=
  if u1 == u2 then Except.ok v
  else if u1 == "FT" && u2 == "M" then Except.ok (v * (3048 / 10000))
  else Except.error ("unknown unit conversion " ++ u1 ++ " to " ++ u2)

/-- Sample wrapped function for the memoize counterexample: returns the
invocation index. -/
def memoSample1 : Nat → List Int → Unit → Int := fun i _ _ => Int.ofNat i

/-- Sample wrapped function for the memoize witness: combines positional
and keyword argument, ignoring the invocation index. -/
def memoSample2 : Nat → Int → Int → Int := fun _ a kw => a * 10 + kw

/-- Sample wrapped function returning its keyword argument, to exhibit
that the cache key ignores keyword arguments. -/
def memoSample3 : Nat → Int → Int → Int := fun _ _ kw => kw

/- ------------------------------------------------------------------ -/
/- Helper lemmas                                                      -/
/- ------------------------------------------------------------------ -/

theorem pyIndex_zero_len (i : Int) : pyIndex 0 i = Option.none := by
  unfold pyIndex
  have h : ¬ (0 ≤ (if i < 0 then i + ((0 : Nat) : Int) else i) ∧
      (if i < 0 then i + ((0 : Nat) : Int) else i) < ((0 : Nat) : Int)) := by
    split <;> omega
  simp only [Nat.cast_zero] at h ⊢
  rw [if_neg h]

theorem pyListGet_nil {α : Type u} (i : Int) : pyListGet ([] : List α) i = Option.none := by
  unfold pyListGet
  rw [List.length_nil, pyIndex_zero_len]

theorem pyIndex_neg (n : Nat) (i : Int) (h1 : -(n : Int) ≤ i) (h2 : i < 0) :
    pyIndex n i = some (i + n).toNat := by
  unfold pyIndex
  rw [if_pos h2, if_pos (by omega)]

/- ------------------------------------------------------------------ -/
/- C5: input_to_int                                                    -/
/- ------------------------------------------------------------------ -/

/-- C5: input_to_int returns the caller default for every falsy input;
for every truthy input whose string form contains a run of decimal
digits it returns the first such run as an int; and for every truthy
input whose string form contains no digit it raises an input error. -/
theorem C5_input_to_int_contract (v d : PyVal) :
    (pyTruthy v = false → input_to_int v d = Except.ok d) ∧
    (∀ run, pyTruthy v = true → firstDigitRun (pyStr v) = some run →
      input_to_int v d = Except.ok (PyVal.int ((digitsToNat run.toList : Int)))) ∧
    (pyTruthy v = true → firstDigitRun (pyStr v) = Option.none →
      ∃ e, input_to_int v d = Except.error e) := by
  refine ⟨fun h => ?_, fun run h hr => ?_, fun h hr => ?_⟩
  · simp [input_to_int, h]
  · simp [input_to_int, h, hr]
  · exact ⟨"Input Error: Cannot use input " ++ pyStr v ++ ". Please check the allowable input options.",
      by simp [input_to_int, h, hr]⟩

/-- Witness for C5 at the selection tag "2-A First Type": truthy, first
digit run "2", parsed to the int 2; and at the falsy input 0, which
returns the caller default. -/
theorem C5_witness :
    pyTruthy (PyVal.str "2-A First Type") = true ∧
    firstDigitRun (pyStr (PyVal.str "2-A First Type")) = some "2" ∧
    input_to_int (PyVal.str "2-A First Type") PyVal.none = Except.ok (PyVal.int 2) ∧
    input_to_int (PyVal.int 0) (PyVal.int 9) = Except.ok (PyVal.int 9) :=
  ⟨by decide, by decide,
    (C5_input_to_int_contract (PyVal.str "2-A First Type") PyVal.none).2.1 "2"
      (by decide) (by decide),
    (C5_input_to_int_contract (PyVal.int 0) (PyVal.int 9)).1 (by decide)⟩

/- ------------------------------------------------------------------ -/
/- C6 and C10: clean_get and cleaner_get                               -/
/- ------------------------------------------------------------------ -/

/-- C6: for every list and index, an index valid for Python list access
(including negative indices within range) returns the element at that
position; an index that raises IndexError falls back to element 0 when
the list is non-empty, and to the supplied default when the list is
empty.  Both functions are total, so no exception escapes. -/
theorem C6_clean_get_contract {α : Type} (l : List α) (i : Int) (d : Option α) (d2 : α) :
    (∀ x, pyListGet l i = some x → clean_get l i d = some x ∧ cleaner_get l i d2 = x) ∧
    (pyListGet l i = Option.none → ∀ x0, pyListGet l 0 = some x0 →
      clean_get l i d = some x0 ∧ cleaner_get l i d2 = x0) ∧
    (l = [] → clean_get l i d = d ∧ cleaner_get l i d2 = d2) := by
  refine ⟨fun x hx => ?_, fun hn x0 h0 => ?_, fun he => ?_⟩
  · constructor <;> simp [clean_get, cleaner_get, hx]
  · constructor <;> simp [clean_get, cleaner_get, hn, h0]
  · subst he
    constructor <;> simp [clean_get, cleaner_get, pyListGet_nil]

/-- Witness for C6 on the list [10, 20, 30]: index 1 is in range and
returns 20; index 5 is out of range and falls back to element 10; on the
empty list every index returns the default. -/
theorem C6_witness :
    pyListGet [10, 20, 30] (1 : Int) = some 20 ∧
    clean_get [10, 20, 30] (1 : Int) (Option.none) = some 20 ∧
    cleaner_get [10, 20, 30] (1 : Int) 0 = 20 ∧
    pyListGet [10, 20, 30] (5 : Int) = Option.none ∧
    clean_get [10, 20, 30] (5 : Int) (Option.none) = some 10 ∧
    cleaner_get [10, 20, 30] (5 : Int) 0 = 10 ∧
    clean_get ([] : List Int) (2 : Int) (some 7) = some 7 ∧
    cleaner_get ([] : List Int) (2 : Int) 7 = 7 := by
  have h1 := (C6_clean_get_contract [10, 20, 30] (1 : Int) Option.none 0).1 20 (by decide)
  have h2 := (C6_clean_get_contract [10, 20, 30] (5 : Int) Option.none 0).2.1
    (by decide) 10 (by decide)
  have h3 := (C6_clean_get_contract ([] : List Int) (2 : Int) (some 7) 7).2.2 rfl
  exact ⟨by decide, h1.1, h1.2, by decide, h2.1, h2.2, h3.1, h3.2⟩

/-- C10: both accessors accept negative indices with Python semantics:
for a non-empty list of length n and an index i with -n ≤ i < 0, the
element at position n + i (counted from the end) is returned, not
element 0 and not the default. -/
theorem C10_negative_index_python_semantics {α : Type} (l : List α) (i : Int)
    (d : Option α) (d2 : α) (x : α)
    (h1 : -(l.length : Int) ≤ i) (h2 : i < 0)
    (hx : l.get? (i + l.length).toNat = some x) :
    clean_get l i d = some x ∧ cleaner_get l i d2 = x := by
  have hp : pyListGet l i = some x := by
    unfold pyListGet
    rw [pyIndex_neg _ _ h1 h2]
    exact hx
  constructor <;> simp [clean_get, cleaner_get, hp]

/-- Witness for C10 on the list [10, 20, 30] at index -1: both accessors
return the last element 30 (not element 0 and not the default). -/
theorem C10_witness :
    (-(([10, 20, 30] : List Int).length : Int) ≤ -1) ∧ ((-1 : Int) < 0) ∧
    ([10, 20, 30] : List Int).get? ((-1 : Int) + ([10, 20, 30] : List Int).length).toNat
      = some 30 ∧
    clean_get [10, 20, 30] (-1 : Int) (Option.none) = some 30 ∧
    cleaner_get [10, 20, 30] (-1 : Int) 0 = 30 := by
  have h := C10_negative_index_python_semantics [10, 20, 30] (-1 : Int) Option.none 0 30
    (by decide) (by decide) (by decide)
  exact ⟨by decide, by decide, by decide, h.1, h.2⟩

/- ------------------------------------------------------------------ -/
/- C2: the absent-input fallback chain                                 -/
/- ------------------------------------------------------------------ -/

/-- C2 counterexample: with no usable default and no previous value, a
validate call on an absent input does NOT fail: both IntegerNonZero and
Float return successfully, yielding None.  The claim asserts such a call
raises an error. -/
theorem C2_counterexample_no_default_no_old :
    IntegerNonZero.validate PyVal.none "n" PyVal.none PyVal.none = Except.ok PyVal.none ∧
    Float.validate PyVal.none "f" PyVal.none PyVal.none = Except.ok PyVal.none := by
  constructor <;> decide

/-- C2 (amended): when new_value is absent (None), the validator first
attempts to coerce the configured default and returns the coerced
default on success; if that coercion fails it returns the previous value
unchanged — even when that previous value is itself None, in which case
the call still returns successfully instead of raising. -/
theorem C2_absent_input_fallback (default : PyVal) (name : String) (old_value : PyVal) :
    (∀ n, pyIntCoerce default = some n →
      IntegerNonZero.validate default name PyVal.none old_value = Except.ok (PyVal.int n)) ∧
    (pyIntCoerce default = Option.none →
      IntegerNonZero.validate default name PyVal.none old_value = Except.ok old_value) ∧
    (∀ q, pyFloatCoerce default = some q →
      Float.validate default name PyVal.none old_value = Except.ok (PyVal.float q)) ∧
    (pyFloatCoerce default = Option.none →
      Float.validate default name PyVal.none old_value = Except.ok old_value) := by
  refine ⟨fun n hn => ?_, fun hn => ?_, fun q hq => ?_, fun hq => ?_⟩
  · simp [IntegerNonZero.validate, hn]
  · simp [IntegerNonZero.validate, hn]
  · simp [Float.validate, hq]
  · simp [Float.validate, hq]

/-- Witness for C2: setting None on an IntegerNonZero with default "3"
yields the int 3; with an uncoercible default the previous value 5 is
returned. -/
theorem C2_witness :
    pyIntCoerce (PyVal.str "3") = some 3 ∧
    IntegerNonZero.validate (PyVal.str "3") "n" PyVal.none PyVal.none = Except.ok (PyVal.int 3) ∧
    pyIntCoerce (PyVal.str "abc") = Option.none ∧
    IntegerNonZero.validate (PyVal.str "abc") "n" PyVal.none (PyVal.int 5)
      = Except.ok (PyVal.int 5) :=
  ⟨by decide,
    (C2_absent_input_fallback (PyVal.str "3") "n" PyVal.none).1 3 (by decide),
    by decide,
    (C2_absent_input_fallback (PyVal.str "abc") "n" (PyVal.int 5)).2.1 (by decide)⟩

/- ------------------------------------------------------------------ -/
/- C3: FloatNonZero rejects everything below the tolerance             -/
/- ------------------------------------------------------------------ -/

/-- C3: for every non-None input coercible to a float value v,
FloatNonZero.validate raises exactly when v - 0.0 < 0.0001, i.e. it
rejects every value below the tolerance — including all negative values
— and otherwise returns the coerced value. -/
theorem C3_float_nonzero_threshold (default : PyVal) (name : String)
    (new_value old_value : PyVal) (v : Rat)
    (hnn : new_value ≠ PyVal.none) (hc : pyFloatCoerce new_value = some v) :
    FloatNonZero.validate default name new_value old_value =
      (if v - 0 < FloatNonZero.tolerance
       then Except.error ("Error: input for " ++ name ++ " cannot be zero.")
       else Except.ok (PyVal.float v)) ∧
    (v < 0 → FloatNonZero.validate default name new_value old_value =
      Except.error ("Error: input for " ++ name ++ " cannot be zero.")) := by
  have hmain : FloatNonZero.validate default name new_value old_value =
      (if v - 0 < FloatNonZero.tolerance
       then Except.error ("Error: input for " ++ name ++ " cannot be zero.")
       else Except.ok (PyVal.float v)) := by
    unfold FloatNonZero.validate
    rw [if_neg hnn, hc]
  refine ⟨hmain, fun hv => ?_⟩
  rw [hmain, if_pos ?_]
  unfold FloatNonZero.tolerance
  linarith

/-- Witness for C3 at the negative value -5.0 (rejected although far
from zero) and at 2.0 (accepted and returned unchanged). -/
theorem C3_witness :
    pyFloatCoerce (PyVal.float (-5)) = some (-5) ∧
    FloatNonZero.validate PyVal.none "n" (PyVal.float (-5)) PyVal.none
      = Except.error ("Error: input for " ++ "n" ++ " cannot be zero.") ∧
    pyFloatCoerce (PyVal.float 2) = some 2 ∧
    FloatNonZero.validate PyVal.none "n" (PyVal.float 2) PyVal.none
      = Except.ok (PyVal.float 2) := by
  have h1 := (C3_float_nonzero_threshold PyVal.none "n" (PyVal.float (-5)) PyVal.none (-5)
    (by decide) (by decide)).2 (by norm_num)
  have h2 := (C3_float_nonzero_threshold PyVal.none "n" (PyVal.float 2) PyVal.none 2
    (by decide) (by decide)).1
  rw [if_neg (by unfold FloatNonZero.tolerance; norm_num)] at h2
  exact ⟨by decide, h1, by decide, h2⟩

/- ------------------------------------------------------------------ -/
/- C4: FloatPercentage rescaling                                       -/
/- ------------------------------------------------------------------ -/

/-- C4: for every input coercible to a float value v,
FloatPercentage.validate divides v by 100 exactly when v lies strictly
between 1.0 and 100.0, then requires the (possibly rescaled) value to
lie in the closed interval from 0.0 to 1.0, returning it on success and
raising otherwise.  In particular 100.0 is not rescaled. -/
theorem C4_float_percentage_rescale (default : PyVal) (name : String)
    (new_value old_value : PyVal) (v : Rat)
    (hnn : new_value ≠ PyVal.none) (hc : pyFloatCoerce new_value = some v) :
    FloatPercentage.validate default name new_value old_value =
      (if 0 ≤ (if 1 < v ∧ v < 100 then v / 100 else v) ∧
          (if 1 < v ∧ v < 100 then v / 100 else v) ≤ 1
       then Except.ok (PyVal.float (if 1 < v ∧ v < 100 then v / 100 else v))
       else Except.error ("Error: input for " ++ name ++ " must be between 0.0 and 1.0")) := by
  unfold FloatPercentage.validate
  rw [if_neg hnn, hc]

/-- Witness for C4: setting 50 yields 0.5; setting 0.5 yields 0.5;
setting 150 raises; setting 100.0 is not rescaled and raises; setting
-0.1 raises. -/
theorem C4_witness :
    pyFloatCoerce (PyVal.float 50) = some 50 ∧
    FloatPercentage.validate PyVal.none "n" (PyVal.float 50) PyVal.none
      = Except.ok (PyVal.float (1 / 2)) ∧
    FloatPercentage.validate PyVal.none "n" (PyVal.float (1 / 2)) PyVal.none
      = Except.ok (PyVal.float (1 / 2)) ∧
    FloatPercentage.validate PyVal.none "n" (PyVal.float 150) PyVal.none
      = Except.error ("Error: input for " ++ "n" ++ " must be between 0.0 and 1.0") ∧
    FloatPercentage.validate PyVal.none "n" (PyVal.float 100) PyVal.none
      = Except.error ("Error: input for " ++ "n" ++ " must be between 0.0 and 1.0") ∧
    FloatPercentage.validate PyVal.none "n" (PyVal.float (-1 / 10)) PyVal.none
      = Except.error ("Error: input for " ++ "n" ++ " must be between 0.0 and 1.0") := by
  have h50 := C4_float_percentage_rescale PyVal.none "n" (PyVal.float 50) PyVal.none 50
    (by decide) (by decide)
  have hhalf := C4_float_percentage_rescale PyVal.none "n" (PyVal.float (1 / 2)) PyVal.none (1 / 2)
    (by decide) (by decide)
  have h150 := C4_float_percentage_rescale PyVal.none "n" (PyVal.float 150) PyVal.none 150
    (by decide) (by decide)
  have h100 := C4_float_percentage_rescale PyVal.none "n" (PyVal.float 100) PyVal.none 100
    (by decide) (by decide)
  have hneg := C4_float_percentage_rescale PyVal.none "n" (PyVal.float (-1 / 10)) PyVal.none (-1 / 10)
    (by decide) (by decide)
  refine ⟨by decide, ?_, ?_, ?_, ?_, ?_⟩
  · rw [h50]; norm_num
  · rw [hhalf]; norm_num
  · rw [h150]; norm_num
  · rw [h100]; norm_num
  · rw [hneg]; norm_num

/- ------------------------------------------------------------------ -/
/- C1: the stored-value invariant, broken by UnitCost_KWH              -/
/- ------------------------------------------------------------------ -/

/-- C1: the stored-value invariant fails on UnitCost_KWH.  Setting the
input "5" on a fresh instance completes without raising, although the
converter successfully produced the float 5 for it; because the source
method has no return statement on this path, the value actually stored
is None, which does not satisfy the acceptance rule (a stored
UnitCost_KWH value being a cost float). -/
theorem C1_unit_cost_kwh_stores_none :
    idConvert 5 "COST/KWH" "COST/KWH" = Except.ok 5 ∧
    Validated.set (UnitCost_KWH.validate idParse idConvert PyVal.none) "cost" []
      (PyVal.str "5") = Except.ok [("cost", PyVal.none)] ∧
    dictGet [("cost", PyVal.none)] "cost" = PyVal.none := by
  refine ⟨by decide, by decide, by decide⟩

/- ------------------------------------------------------------------ -/
/- C7 and C9: memoize                                                  -/
/- ------------------------------------------------------------------ -/

/-- C7 counterexample: with a starting cache that already holds the
positional arguments (the sticky dict is persistent host state), two
successive calls with identical positional arguments invoke the
underlying function zero times, not exactly once as the claim states for
any starting cache state. -/
theorem C7_counterexample_precached :
    (memoize_wrapper memoSample1
      (memoize_wrapper memoSample1 ⟨[([1], 99)], 0⟩ [1] ()).2 [1] ()).2.calls = 0 ∧
    ¬ (memoize_wrapper memoSample1
      (memoize_wrapper memoSample1 ⟨[([1], 99)], 0⟩ [1] ()).2 [1] ()).2.calls = 0 + 1 := by
  refine ⟨by decide, by decide⟩

/-- C7 (amended): provided the positional arguments are not already in
the starting cache, two successive calls with identical positional
arguments invoke the underlying function exactly once (the invocation
count rises by exactly one), and the second call returns the value
stored by the first — the value the function produced at the first
invocation — even if the function would return something different at a
later invocation. -/
theorem C7_memoize_invokes_once {α κ β : Type} [DecidableEq α]
    (func : Nat → α → κ → β) (s : MemoState α β) (a : α) (kw1 kw2 : κ)
    (h : stickyLookup s.sticky a = Option.none) :
    (memoize_wrapper func (memoize_wrapper func s a kw1).2 a kw2).2.calls = s.calls + 1 ∧
    (memoize_wrapper func (memoize_wrapper func s a kw1).2 a kw2).1
      = (memoize_wrapper func s a kw1).1 ∧
    (memoize_wrapper func s a kw1).1 = func s.calls a kw1 := by
  refine ⟨?_, ?_, ?_⟩ <;> simp [memoize_wrapper, stickyLookup, h]

/-- Witness for C7 on an empty starting cache: the first call computes
5 * 10 + 1 = 51, the second call (same positional argument) returns the
cached 51 and the invocation count is exactly 1. -/
theorem C7_witness :
    stickyLookup (MemoState.sticky ⟨[], 0⟩ : List (Int × Int)) 5 = Option.none ∧
    (memoize_wrapper memoSample2 (memoize_wrapper memoSample2 ⟨[], 0⟩ 5 1).2 5 1).2.calls
      = 0 + 1 ∧
    (memoize_wrapper memoSample2 (memoize_wrapper memoSample2 ⟨[], 0⟩ 5 1).2 5 1).1
      = (memoize_wrapper memoSample2 ⟨[], 0⟩ 5 1).1 ∧
    (memoize_wrapper memoSample2 ⟨[], 0⟩ 5 1).1 = 51 := by
  have h := C7_memoize_invokes_once memoSample2 ⟨[], 0⟩ 5 1 1 rfl
  exact ⟨rfl, h.1, h.2.1, by decide⟩

/-- C9: the cache key is the positional arguments only.  For two calls
with equal positional arguments but (possibly different) keyword
arguments, when the key is not yet cached, the second call does not
invoke the underlying function (the invocation count does not change)
and returns the value computed with the FIRST call's keyword
arguments. -/
theorem C9_memoize_ignores_kwargs {α κ β : Type} [DecidableEq α]
    (func : Nat → α → κ → β) (s : MemoState α β) (a : α) (kw1 kw2 : κ)
    (h : stickyLookup s.sticky a = Option.none) :
    (memoize_wrapper func (memoize_wrapper func s a kw1).2 a kw2).1 = func s.calls a kw1 ∧
    (memoize_wrapper func (memoize_wrapper func s a kw1).2 a kw2).2.calls
      = (memoize_wrapper func s a kw1).2.calls := by
  refine ⟨?_, ?_⟩ <;> simp [memoize_wrapper, stickyLookup, h]

/-- Witness for C9 with a function that returns its keyword argument:
first call with keyword 7, second call with keyword 8 and the same
positional argument 3 returns 7 (the first call's keyword result), with
no further invocation. -/
theorem C9_witness :
    stickyLookup ((MemoState.mk [] 0 : MemoState Int Int).sticky) 3 = Option.none ∧
    (memoize_wrapper memoSample3 (memoize_wrapper memoSample3 ⟨[], 0⟩ 3 7).2 3 8).1 = 7 ∧
    (memoize_wrapper memoSample3 (memoize_wrapper memoSample3 ⟨[], 0⟩ 3 7).2 3 8).2.calls
      = (memoize_wrapper memoSample3 ⟨[], 0⟩ 3 7).2.calls := by
  have h := C9_memoize_ignores_kwargs memoSample3 ⟨[], 0⟩ 3 7 8 rfl
  exact ⟨rfl, h.1, h.2⟩

/- ------------------------------------------------------------------ -/
/- C8: unit validators round-trip                                      -/
/- ------------------------------------------------------------------ -/

/-- C8: for any external parser and converter, a value the parser
reports with no unit token (or already tagged with the canonical unit)
goes through the identity conversion — convert v u u with equal units —
and is returned unchanged whenever the converter is the identity on
equal units.  A value tagged with a non-empty alternate unit yields
exactly one application of the external conversion from that unit to the
canonical unit.  Stated for UnitM (canonical unit M) and UnitM2
(canonical unit M2). -/
theorem C8_unit_validators_round_trip (parse : String → PyVal × Option String)
    (convert : Rat → String → String → Except String Rat)
    (default : PyVal) (name : String) (new_value old_value sv : PyVal) (v : Rat) :
    (∀ u0, new_value ≠ PyVal.none → parse (pyStr new_value) = (sv, u0) →
      (u0 = Option.none ∨ u0 = some "M") → pyFloatCoerce sv = some v →
      convert v "M" "M" = Except.ok v →
      UnitM.validate parse convert default name new_value old_value
        = Except.ok (PyVal.float v)) ∧
    (∀ u, new_value ≠ PyVal.none → parse (pyStr new_value) = (sv, some u) → u ≠ "" →
      pyFloatCoerce sv = some v →
      UnitM.validate parse convert default name new_value old_value
        = (convert v u "M").map PyVal.float) ∧
    (∀ u0, new_value ≠ PyVal.none → parse (pyStr new_value) = (sv, u0) →
      (u0 = Option.none ∨ u0 = some "M2") → pyFloatCoerce sv = some v →
      convert v "M2" "M2" = Except.ok v →
      UnitM2.validate parse convert default name new_value old_value
        = Except.ok (PyVal.float v)) ∧
    (∀ u, new_value ≠ PyVal.none → parse (pyStr new_value) = (sv, some u) → u ≠ "" →
      pyFloatCoerce sv = some v →
      UnitM2.validate parse convert default name new_value old_value
        = (convert v u "M2").map PyVal.float) := by
  refine ⟨fun u0 hnn hp hu hc hcv => ?_, fun u hnn hp hu hc => ?_,
    fun u0 hnn hp hu hc hcv => ?_, fun u hnn hp hu hc => ?_⟩
  · unfold UnitM.validate
    rw [if_neg hnn]
    simp only [hp, hc]
    rcases hu with rfl | rfl <;> simp [strOr, hcv]
  · unfold UnitM.validate
    rw [if_neg hnn]
    simp only [hp, hc]
    simp only [strOr, if_neg hu]
    cases hconv : convert v u "M" <;> simp [Except.map]
  · unfold UnitM2.validate
    rw [if_neg hnn]
    simp only [hp, hc]
    rcases hu with rfl | rfl <;> simp [strOr, hcv]
  · unfold UnitM2.validate
    rw [if_neg hnn]
    simp only [hp, hc]
    simp only [strOr, if_neg hu]
    cases hconv : convert v u "M2" <;> simp [Except.map]

/-- Witness for C8: with a parser reporting no unit token and an
identity converter, the value 5 round-trips unchanged through UnitM and
UnitM2; with a parser tagging the unit FT and a converter knowing feet
to meters at 0.3048, UnitM applies that conversion exactly once, giving
1.524. -/
theorem C8_witness :
    pyFloatCoerce (PyVal.str "5") = some 5 ∧
    UnitM.validate idParse idConvert PyVal.none "n" (PyVal.str "5") PyVal.none
      = Except.ok (PyVal.float 5) ∧
    UnitM2.validate idParse idConvert PyVal.none "n" (PyVal.str "5") PyVal.none
      = Except.ok (PyVal.float 5) ∧
    UnitM.validate ftParse ftConvert PyVal.none "n" (PyVal.str "5") PyVal.none
      = (ftConvert 5 "FT" "M").map PyVal.float ∧
    (ftConvert 5 "FT" "M").map PyVal.float = Except.ok (PyVal.float (381 / 250)) := by
  have h1 := (C8_unit_validators_round_trip idParse idConvert PyVal.none "n"
    (PyVal.str "5") PyVal.none (PyVal.str "5") 5).1 Option.none
    (by decide) rfl (Or.inl rfl) (by decide) rfl
  have h2 := (C8_unit_validators_round_trip idParse idConvert PyVal.none "n"
    (PyVal.str "5") PyVal.none (PyVal.str "5") 5).2.2.1 Option.none
    (by decide) rfl (Or.inl rfl) (by decide) rfl
  have h3 := (C8_unit_validators_round_trip ftParse ftConvert PyVal.none "n"
    (PyVal.str "5") PyVal.none (PyVal.str "5") 5).2.1 "FT"
    (by decide) rfl (by decide) (by decide)
  exact ⟨by decide, h1, h2, h3, by decide⟩

end PhGH
